import Mathlib

set_option maxHeartbeats 1000000

/-- Open bag of auxiliary values carried in the extra field of a DataItem. -/
inductive ExtraVal where
  | s (v : Option String)
  | n (v : Option Nat)
  | b (v : Option Bool)
  | strList (v : List (Option String))
  | natList (v : List Nat)
  | boolDict (v : List (String × Bool))
deriving DecidableEq

/-- Unified output entity of the loader framework, mirroring the DataItem
dataclass: three tri-state label booleans, optional texts, a category and an
open extra bag. The id default stands in for the uuid placeholder, which the
orchestrating loader always overwrites. -/
structure DataItem where
  id : String := ""
  query : Option String := none
  response : Option String := none
  query_harmful_label : Option Bool := none
  response_harmful_label : Option Bool := none
  response_refusal_label : Option Bool := none
  category : Option String := none
  extra : List (String × ExtraVal) := []
deriving DecidableEq

/-- Decimal digit character for a value below ten. -/
def digitChar (n : Nat) : Char := Char.ofNat (48 + n)

/-- Fuel-driven decimal rendering of a natural number, most significant digit
first. Fuel n + 1 always suffices for n. -/
def toDecimalAux : Nat → Nat → List Char
  | 0, _ => []
  | fuel + 1, n => if n < 10 then [digitChar n] else toDecimalAux fuel (n / 10) ++ [digitChar (n % 10)]

/-- Decimal rendering of a natural number as a list of digit characters. -/
def toDecimal (n : Nat) : List Char := toDecimalAux (n + 1) n

/-- Python format idx:06d : zero pad on the left to a minimum width of six,
never truncating wider numbers. -/
def pad6 (n : Nat) : String := ⟨List.replicate (6 - (toDecimal n).length) '0' ++ toDecimal n⟩

/-- BaseDataLoader.generate_id: register name, a dash, then the zero padded
one-based counter. -/
def generate_id (register_name : String) (idx : Nat) : String :=
  register_name ++ "-" ++ pad6 idx

/-- Python enumerate with an explicit start index. -/
def enumerate (start : Nat) : List α → List (Nat × α)
  | [] => []
  | a :: as => (start, a) :: enumerate (start + 1) as

/-- Shared per-row driver body: map every row, then overwrite the id of the
mapped item with the sequential generated id. -/
def numberItems (register_name : String) (start : Nat) (g : α → DataItem) (l : List α) : List DataItem :=
  (enumerate start l).map (fun p => { g p.2 with id := generate_id register_name p.1 })

/-- BaseDataLoader.load: the fetch collaborator has already produced the raw
rows; for each row, in order, starting the counter at one, apply the concrete
mapping and assign the generated id. -/
def BaseDataLoader.load (register_name : String) (mapping : α → DataItem) (rows : List α) : List DataItem :=
  numberItems register_name 1 mapping rows

theorem enumerate_length (start : Nat) (l : List α) : (enumerate start l).length = l.length := by
  induction l generalizing start with
  | nil => rfl
  | cons a as ih => simp [enumerate, ih]

theorem enumerate_getElem? (start : Nat) (l : List α) (i : Nat) :
    (enumerate start l)[i]? = l[i]?.map (fun a => (start + i, a)) := by
  induction l generalizing start i with
  | nil => simp [enumerate]
  | cons a as ih =>
    cases i with
    | zero => simp [enumerate]
    | succ j =>
      simp only [enumerate, List.getElem?_cons_succ, ih]
      cases as[j]? with
      | none => simp
      | some x => simp; omega

theorem enumerate_get (start : Nat) (l : List α) (i : Nat) (h : i < l.length)
    (h2 : i < (enumerate start l).length) :
    (enumerate start l).get ⟨i, h2⟩ = (start + i, l.get ⟨i, h⟩) := by
  have h1 := enumerate_getElem? start l i
  rw [List.getElem?_eq_getElem h, List.getElem?_eq_getElem h2] at h1
  simp only [Option.map_some'] at h1
  simpa [List.get_eq_getElem] using Option.some.inj h1

theorem numberItems_length (nm : String) (s : Nat) (g : α → DataItem) (l : List α) :
    (numberItems nm s g l).length = l.length := by
  simp [numberItems, enumerate_length]

theorem numberItems_id (nm : String) (s : Nat) (g : α → DataItem) (l : List α)
    (i : Nat) (h : i < (numberItems nm s g l).length) :
    ((numberItems nm s g l).get ⟨i, h⟩).id = generate_id nm (s + i) := by
  have hl : i < l.length := by
    have := numberItems_length nm s g l
    omega
  have he : i < (enumerate s l).length := by rw [enumerate_length]; exact hl
  simp only [numberItems, List.get_eq_getElem, List.getElem_map]
  have : (enumerate s l)[i] = (s + i, l.get ⟨i, hl⟩) := by
    have := enumerate_get s l i hl he
    simpa [List.get_eq_getElem] using this
  rw [this]

theorem toDecimalAux_eq_toDecimal : ∀ (n fuel : Nat), n < fuel → toDecimalAux fuel n = toDecimal n := by
  intro n
  induction n using Nat.strong_induction_on with
  | _ n ih =>
    intro fuel hf
    cases fuel with
    | zero => omega
    | succ f =>
      by_cases h10 : n < 10
      · simp [toDecimal, toDecimalAux, h10]
      · have hd : n / 10 < n := Nat.div_lt_self (by omega) (by omega)
        have e1 : toDecimalAux (f + 1) n = toDecimalAux f (n / 10) ++ [digitChar (n % 10)] := by
          simp [toDecimalAux, h10]
        have e2 : toDecimal n = toDecimalAux n (n / 10) ++ [digitChar (n % 10)] := by
          simp [toDecimal, toDecimalAux, h10]
        rw [e1, e2, ih (n / 10) hd f (by omega), ih (n / 10) hd n hd]

theorem toDecimal_base (n : Nat) (h : n < 10) : toDecimal n = [digitChar n] := by
  simp [toDecimal, toDecimalAux, h]

theorem toDecimal_step (n : Nat) (h : 10 ≤ n) :
    toDecimal n = toDecimal (n / 10) ++ [digitChar (n % 10)] := by
  have e2 : toDecimal n = toDecimalAux n (n / 10) ++ [digitChar (n % 10)] := by
    simp [toDecimal, toDecimalAux, Nat.not_lt.2 h]
  rw [e2, toDecimalAux_eq_toDecimal (n / 10) n (Nat.div_lt_self (by omega) (by omega))]

theorem toDecimal_ne_nil (n : Nat) : toDecimal n ≠ [] := by
  by_cases h : n < 10
  · simp [toDecimal_base n h]
  · rw [toDecimal_step n (by omega)]
    simp

theorem digitChar_inj : ∀ a, a < 10 → ∀ b, b < 10 → digitChar a = digitChar b → a = b := by
  decide

theorem digitChar_ne_zero : ∀ a, a < 10 → 1 ≤ a → (digitChar a == '0') = false := by
  decide

theorem toDecimal_head : ∀ n, 1 ≤ n → ∃ c l, toDecimal n = c :: l ∧ (c == '0') = false := by
  intro n
  induction n using Nat.strong_induction_on with
  | _ n ih =>
    intro h
    by_cases h10 : n < 10
    · exact ⟨digitChar n, [], toDecimal_base n h10, digitChar_ne_zero n h10 h⟩
    · have hd : n / 10 < n := Nat.div_lt_self (by omega) (by omega)
      have h1 : 1 ≤ n / 10 := (Nat.one_le_div_iff (by omega)).2 (by omega)
      obtain ⟨c, l, e, hc⟩ := ih (n / 10) hd h1
      refine ⟨c, l ++ [digitChar (n % 10)], ?_, hc⟩
      rw [toDecimal_step n (by omega), e]
      rfl

theorem dropWhile_zero_replicate (k : Nat) (l : List Char) :
    List.dropWhile (fun c => c == '0') (List.replicate k '0' ++ l) =
      List.dropWhile (fun c => c == '0') l := by
  induction k with
  | zero => simp
  | succ m ih => simp [List.replicate_succ, List.dropWhile_cons, ih]

theorem dropWhile_toDecimal (n : Nat) (h : 1 ≤ n) :
    List.dropWhile (fun c => c == '0') (toDecimal n) = toDecimal n := by
  obtain ⟨c, l, e, hc⟩ := toDecimal_head n h
  rw [e, List.dropWhile_cons, hc]
  simp

theorem toDecimal_inj : ∀ a, ∀ b, toDecimal a = toDecimal b → a = b := by
  intro a
  induction a using Nat.strong_induction_on with
  | _ a ih =>
    intro b h
    by_cases ha : a < 10 <;> by_cases hb : b < 10
    · rw [toDecimal_base a ha, toDecimal_base b hb] at h
      simp only [List.cons.injEq, and_true] at h
      exact digitChar_inj a ha b hb h
    · exfalso
      rw [toDecimal_base a ha, toDecimal_step b (by omega)] at h
      have hlen := congrArg List.length h
      simp only [List.length_cons, List.length_nil, List.length_append] at hlen
      have hnil : toDecimal (b / 10) = [] := List.length_eq_zero.1 (by omega)
      exact toDecimal_ne_nil (b / 10) hnil
    · exfalso
      rw [toDecimal_step a (by omega), toDecimal_base b hb] at h
      have hlen := congrArg List.length h
      simp only [List.length_cons, List.length_nil, List.length_append] at hlen
      have hnil : toDecimal (a / 10) = [] := List.length_eq_zero.1 (by omega)
      exact toDecimal_ne_nil (a / 10) hnil
    · rw [toDecimal_step a (by omega), toDecimal_step b (by omega)] at h
      have h2 : digitChar (a % 10) :: (toDecimal (a / 10)).reverse =
          digitChar (b % 10) :: (toDecimal (b / 10)).reverse := by
        have := congrArg List.reverse h
        simpa using this
      have e1 : digitChar (a % 10) = digitChar (b % 10) := (List.cons.inj h2).1
      have e2 : toDecimal (a / 10) = toDecimal (b / 10) :=
        List.reverse_inj.1 (List.cons.inj h2).2
      have hm : a % 10 = b % 10 := digitChar_inj _ (by omega) _ (by omega) e1
      have hq : a / 10 = b / 10 := ih (a / 10) (Nat.div_lt_self (by omega) (by omega)) (b / 10) e2
      omega

theorem pad6_inj (a b : Nat) (ha : 1 ≤ a) (hb : 1 ≤ b) (h : pad6 a = pad6 b) : a = b := by
  have hd : (List.replicate (6 - (toDecimal a).length) '0' ++ toDecimal a) =
      (List.replicate (6 - (toDecimal b).length) '0' ++ toDecimal b) := congrArg String.data h
  have h2 := congrArg (List.dropWhile (fun c => c == '0')) hd
  rw [dropWhile_zero_replicate, dropWhile_zero_replicate,
    dropWhile_toDecimal a ha, dropWhile_toDecimal b hb] at h2
  exact toDecimal_inj a b h2

theorem generate_id_inj (nm : String) (a b : Nat) (ha : 1 ≤ a) (hb : 1 ≤ b)
    (h : generate_id nm a = generate_id nm b) : a = b := by
  apply pad6_inj a b ha hb
  have hd := congrArg String.data h
  simp only [generate_id, String.data_append, List.append_assoc] at hd
  have h2 := List.append_cancel_left hd
  have h3 := List.append_cancel_left h2
  exact String.ext h3

theorem toDecimal_length_ge : ∀ k n, 10 ^ k ≤ n → k + 1 ≤ (toDecimal n).length := by
  intro k
  induction k with
  | zero =>
    intro n _
    have h := toDecimal_ne_nil n
    have := List.length_pos.2 h
    omega
  | succ m ih =>
    intro n h
    have hpow : 10 ≤ 10 ^ (m + 1) := by
      calc 10 = 10 ^ 1 := by norm_num
      _ ≤ 10 ^ (m + 1) := Nat.pow_le_pow_right (by norm_num) (by omega)
    have h10 : 10 ≤ n := le_trans hpow h
    rw [toDecimal_step n h10]
    have hdiv : 10 ^ m ≤ n / 10 := by
      rw [Nat.le_div_iff_mul_le (by norm_num)]
      calc 10 ^ m * 10 = 10 ^ (m + 1) := (pow_succ 10 m).symm
      _ ≤ n := h
    have := ih (n / 10) hdiv
    simp only [List.length_append, List.length_cons]
    omega

theorem pad6_no_truncation (n : Nat) (h : 999999 < n) :
    pad6 n = ⟨toDecimal n⟩ ∧ 7 ≤ (toDecimal n).length := by
  have hlen : 7 ≤ (toDecimal n).length := by
    have e : (10 : Nat) ^ 6 = 1000000 := by norm_num
    have hle : (10 : Nat) ^ 6 ≤ n := by omega
    have := toDecimal_length_ge 6 n hle
    omega
  constructor
  · unfold pad6
    have : 6 - (toDecimal n).length = 0 := by omega
    rw [this]
    rfl
  · exact hlen

theorem numberItems_cons (nm : String) (s : Nat) (g : α → DataItem) (a : α) (as : List α) :
    numberItems nm s g (a :: as) =
      ({ g a with id := generate_id nm s }) :: numberItems nm (s + 1) g as := rfl

theorem numberItems_map_id (nm : String) (s : Nat) (g : α → DataItem) (l : List α) :
    (numberItems nm s g l).map DataItem.id = (List.range' s l.length).map (generate_id nm) := by
  induction l generalizing s with
  | nil => rfl
  | cons a as ih =>
    rw [numberItems_cons, List.map_cons, List.length_cons, List.range'_succ, List.map_cons, ih]

theorem numberItems_id_nodup (nm : String) (g : α → DataItem) (l : List α) :
    ((numberItems nm 1 g l).map DataItem.id).Nodup := by
  rw [numberItems_map_id]
  apply List.Nodup.map_on _ (List.nodup_range' 1 l.length)
  intro x hx y hy hxy
  rw [List.mem_range'] at hx hy
  obtain ⟨i, hi, rfl⟩ := hx
  obtain ⟨j, hj, rfl⟩ := hy
  have := generate_id_inj nm _ _ (by omega) (by omega) hxy
  omega

/-- Raw row of the aegis-v1 dataset: the conversation text, its type and the
five per-rater label fields. A value of Option.none stands for a field that is
absent or carries the source null. -/
structure AegisV1Row where
  text : Option String := none
  text_type : Option String := none
  labels_0 : Option String := none
  labels_1 : Option String := none
  labels_2 : Option String := none
  labels_3 : Option String := none
  labels_4 : Option String := none
deriving DecidableEq

/-- The five per-rater label values of an aegis-v1 row, in field order. -/
def labelList (row : AegisV1Row) : List (Option String) :=
  [row.labels_0, row.labels_1, row.labels_2, row.labels_3, row.labels_4]

/-- Votes kept by the majority step: a label takes part only when it is
present, truthy as a Python value (nonempty) and not the literal token None. -/
def valid_labels (row : AegisV1Row) : List String :=
  (labelList row).filterMap (fun o =>
    match o with
    | some s => if s != "" && s != "None" then some s else none
    | none => none)

/-- Labels kept by the risk step: only a source null is dropped, empty strings
and the literal token None stay in. -/
def notNoneLabels (row : AegisV1Row) : List String :=
  (labelList row).filterMap id

/-- First occurrences of each value, in encounter order. -/
def firstOccs (l : List String) : List String :=
  l.foldl (fun acc x => if acc.contains x then acc else acc.concat x) []

/-- Counter.most_common of one element: the value with the highest count,
ties broken by first encounter, mirroring dict insertion order. -/
def mostCommonLabel (l : List String) : String :=
  let keys := firstOccs l
  let maxC := keys.foldl (fun m k => max m (l.count k)) 0
  ((keys.filter (fun k => l.count k == maxC)).head?).getD "None"

/-- AegisV1Loader._get_majority_label: discard abstentions, return the
sentinel None when no vote survives, else the stable majority vote. -/
def AegisV1Loader._get_majority_label (row : AegisV1Row) : String :=
  let valid := valid_labels row
  if valid.isEmpty then "None" else mostCommonLabel valid

/-- AegisV1Loader.mapping: majority category plus the every-rater risk rule
over the labels that are not source nulls. -/
def AegisV1Loader.mapping (row : AegisV1Row) : DataItem :=
  let majority_label := AegisV1Loader._get_majority_label row
  let labels := notNoneLabels row
  let is_harmful := labels.all (fun l => l != "Safe")
  { query := row.text
    query_harmful_label := some is_harmful
    category := some majority_label
    extra := [("text_type", ExtraVal.s row.text_type),
              ("labels", ExtraVal.strList (labelList row))] }

theorem filterMap_valid_all_ne_safe : ∀ l : List (Option String),
    ((l.filterMap id).all (fun s => s != "Safe")) =
      ((l.filterMap (fun o =>
        match o with
        | some s => if s != "" && s != "None" then some s else none
        | none => none)).all (fun s => s != "Safe")) := by
  intro l
  induction l with
  | nil => rfl
  | cons o rest ih =>
    cases o with
    | none => simpa using ih
    | some s =>
      by_cases hc : (s != "" && s != "None") = true
      · simp only [List.filterMap_cons, id, hc, if_pos, List.all_cons, ih]
      · have hs : s = "" ∨ s = "None" := by
          by_cases h1 : s = ""
          · exact Or.inl h1
          · refine Or.inr ?_
            by_cases h2 : s = "None"
            · exact h2
            · exact absurd (by simp [h1, h2]) hc
        rcases hs with rfl | rfl <;> simpa using ih

theorem notNone_all_eq_valid_all (row : AegisV1Row) :
    (notNoneLabels row).all (fun s => s != "Safe") =
      (valid_labels row).all (fun s => s != "Safe") :=
  filterMap_valid_all_ne_safe (labelList row)

theorem filterMap_valid_nil_of_abstain : ∀ l : List (Option String),
    (∀ o ∈ l, o = none ∨ o = some "" ∨ o = some "None") →
    (l.filterMap (fun o =>
      match o with
      | some s => if s != "" && s != "None" then some s else none
      | none => none)) = [] := by
  intro l h
  induction l with
  | nil => rfl
  | cons o rest ih =>
    have ho := h o (List.mem_cons_self o rest)
    have hrest : ∀ o ∈ rest, o = none ∨ o = some "" ∨ o = some "None" :=
      fun x hx => h x (List.mem_cons_of_mem o hx)
    rcases ho with rfl | rfl | rfl <;> simpa using ih hrest

theorem filterMap_id_all_of_abstain : ∀ l : List (Option String),
    (∀ o ∈ l, o = none ∨ o = some "" ∨ o = some "None") →
    ((l.filterMap id).all (fun s => s != "Safe")) = true := by
  intro l h
  induction l with
  | nil => rfl
  | cons o rest ih =>
    have ho := h o (List.mem_cons_self o rest)
    have hrest : ∀ o ∈ rest, o = none ∨ o = some "" ∨ o = some "None" :=
      fun x hx => h x (List.mem_cons_of_mem o hx)
    rcases ho with rfl | rfl | rfl <;> simpa using ih hrest

/-- Raw row of the aegis-v2 dataset. A value of Option.none stands for a field
that is absent or carries the source null. -/
structure AegisV2Row where
  prompt : Option String := none
  response : Option String := none
  prompt_label : Option String := none
  response_label : Option String := none
  violated_categories : Option String := none
  prompt_label_source : Option String := none
  response_label_source : Option String := none
  reconstruction_id_if_redacted : Option String := none
deriving DecidableEq

/-- AegisV2Loader.mapping: direct label comparisons against the unsafe token
and the refusal augmentation source marker. -/
def AegisV2Loader.mapping (row : AegisV2Row) : DataItem :=
  let q_harmful := row.prompt_label == some "unsafe"
  let r_harmful := row.response_label == some "unsafe"
  let is_refusal := row.response_label_source == some "refusal_data_augmentation"
  { query := row.prompt
    response := row.response
    query_harmful_label := some q_harmful
    response_harmful_label := some r_harmful
    response_refusal_label := some is_refusal
    category := some (row.violated_categories.getD "")
    extra := [("reconstruction_id", ExtraVal.s row.reconstruction_id_if_redacted),
              ("prompt_label_source", ExtraVal.s row.prompt_label_source),
              ("response_label_source", ExtraVal.s row.response_label_source)] }

/-- Raw row of the BeaverTails dataset: the category field is a dictionary of
named boolean flags, kept here as an ordered association list. -/
structure BeaverTailsRow where
  prompt : Option String := none
  response : Option String := none
  category : Option (List (String × Bool)) := none
  is_safe : Option Bool := none
deriving DecidableEq

/-- BeaverTailsLoader._extract_categories: join the names of the flags set to
true with semicolons, in dictionary iteration order. -/
def BeaverTailsLoader._extract_categories (category_dict : List (String × Bool)) : String :=
  if category_dict.isEmpty then ""
  else String.intercalate ";" ((category_dict.filter (fun p => p.2)).map (fun p => p.1))

/-- BeaverTailsLoader.mapping: the negated overall safety flag is written to
both harmful labels; an empty category join degrades to null. -/
def BeaverTailsLoader.mapping (row : BeaverTailsRow) : DataItem :=
  let is_safe := row.is_safe.getD true
  let overall_harmful := !is_safe
  let category_dict := row.category.getD []
  let violated_str := BeaverTailsLoader._extract_categories category_dict
  { query := row.prompt
    response := row.response
    query_harmful_label := some overall_harmful
    response_harmful_label := some overall_harmful
    category := if violated_str.length != 0 then some violated_str else none
    extra := [("raw_category_map", ExtraVal.boolDict category_dict)] }

/-- Raw row of the BingoGuard dataset. -/
structure BingoGuardRow where
  prompt : Option String := none
  response : Option String := none
  label : Option String := none
  prompt_label : Option String := none
deriving DecidableEq

/-- Bool test for a pattern occurring as a contiguous substring. -/
def containsSub (pat : List Char) : List Char → Bool
  | [] => pat.isPrefixOf []
  | c :: rest => pat.isPrefixOf (c :: rest) || containsSub pat rest

/-- Decimal value of a digit character run. -/
def digitsToNat (l : List Char) : Nat := l.foldl (fun a c => a * 10 + (c.toNat - 48)) 0

/-- Regex search for the level pattern: the first occurrence of the level
marker followed by optional whitespace and at least one digit; the greedy
digit run is captured. -/
def findLevel : List Char → Option Nat
  | [] => none
  | c :: rest =>
    if ("#level:".data).isPrefixOf (c :: rest) then
      let after := (c :: rest).drop 7
      let ds := (after.dropWhile Char.isWhitespace).takeWhile Char.isDigit
      if ds.isEmpty then findLevel rest else some (digitsToNat ds)
    else findLevel rest

/-- BingoGuardLoader._extract_severity: only a truthy label containing the
level marker is searched; no match yields null, never zero. -/
def BingoGuardLoader._extract_severity (label_str : String) : Option Nat :=
  if label_str != "" && containsSub ("#level:".data) label_str.data then
    findLevel label_str.data
  else none

/-- Python str.strip with no argument: drop leading and trailing whitespace. -/
def pyStrip (s : String) : String :=
  ⟨((s.data.dropWhile Char.isWhitespace).reverse.dropWhile Char.isWhitespace).reverse⟩

/-- Python str.lower over the character sequence. -/
def pyLower (s : String) : String := ⟨s.data.map Char.toLower⟩

/-- Substring after the last colon, the last piece of a Python colon split. -/
def afterLastColon (s : String) : String :=
  ⟨(s.data.reverse.takeWhile (fun c => c != ':')).reverse⟩

/-- BingoGuardLoader._parse_safety: harmfulness is the presence of the unsafe
marker; the category is the trimmed post-last-colon piece, with the unsafe
sentinel as fallback when no colon is present. -/
def BingoGuardLoader._parse_safety (prompt_label : String) : Bool × String :=
  if prompt_label = "" then (false, "safe")
  else
    let is_harmful := containsSub ("unsafe".data) prompt_label.data
    let category :=
      if prompt_label.data.contains ':' then pyStrip (afterLastColon prompt_label)
      else if is_harmful then "unsafe" else "safe"
    (is_harmful, category)

/-- BingoGuardLoader.mapping: both harmful labels follow the prompt label,
except that an absent, blank or literal none response forces the response
harmful label to null. -/
def BingoGuardLoader.mapping (row : BingoGuardRow) : DataItem :=
  let p_label_raw := row.prompt_label.getD ""
  let r_label_raw := row.label.getD ""
  let response_text := row.response
  let pr := BingoGuardLoader._parse_safety p_label_raw
  let final_r_harmful : Option Bool :=
    match response_text with
    | none => none
    | some s => if pyStrip s = "" || pyLower s = "none" then none else some pr.1
  let severity := BingoGuardLoader._extract_severity r_label_raw
  { query := row.prompt
    response := response_text
    query_harmful_label := some pr.1
    response_harmful_label := final_r_harmful
    category := some pr.2
    extra := [("severity", ExtraVal.n severity),
              ("prompt_label", ExtraVal.s (some p_label_raw)),
              ("label_field", ExtraVal.s (some r_label_raw))] }

/-- Row of the HarmBench behavior CSV file. -/
structure HarmBenchCsvRow where
  Behavior : Option String := none
  FunctionalCategory : Option String := none
  SemanticCategory : Option String := none
  Tags : Option String := none
  ContextString : Option String := none
  BehaviorID : Option String := none
deriving DecidableEq

/-- Allow-list filter of the tabular sub-source: only the standard and
copyright functional categories are kept. -/
def functionalCategoryAllowed (row : HarmBenchCsvRow) : Bool :=
  row.FunctionalCategory == some "standard" || row.FunctionalCategory == some "copyright"

/-- Item built from one allow-listed CSV row, before id assignment. -/
def harmbenchCsvItem (row : HarmBenchCsvRow) : DataItem :=
  { query := row.Behavior
    response := none
    query_harmful_label := some true
    response_harmful_label := none
    category := some (row.SemanticCategory.getD "")
    extra := [("behavior_id", ExtraVal.s row.BehaviorID),
              ("functional_category", ExtraVal.s row.FunctionalCategory),
              ("tags", ExtraVal.s row.Tags),
              ("context_string", ExtraVal.s row.ContextString),
              ("source_file", ExtraVal.s (some "behavior_csv"))] }

/-- HarmBenchLoader._parse_query_csv: keep only allow-listed rows, then map
and number them from the given start index. -/
def HarmBenchLoader._parse_query_csv (rows : List HarmBenchCsvRow) (start_idx : Nat) : List DataItem :=
  numberItems "harmbench" start_idx harmbenchCsvItem (rows.filter functionalCategoryAllowed)

/-- Case entry of the HarmBench validation JSON file. -/
structure HarmBenchCaseRow where
  test_case : Option String := none
  generation : Option String := none
  experiment : Option String := none
  method : Option String := none
  model : Option String := none
  human_0 : Option Nat := none
  human_1 : Option Nat := none
  human_2 : Option Nat := none
deriving DecidableEq

/-- Flatten the nested behavior-key to case-list mapping into one flat case
sequence, keeping the owning key per case, in encounter order. -/
def flatCases (raw_data : List (String × List HarmBenchCaseRow)) : List (String × HarmBenchCaseRow) :=
  raw_data.flatMap (fun p => p.2.map (fun c => (p.1, c)))

/-- Item built from one flattened JSON case with its owning behavior key:
strictly more than one positive human vote marks a harmful response. -/
def harmbenchJsonItem (p : String × HarmBenchCaseRow) : DataItem :=
  let c := p.2
  let human_votes := [c.human_0.getD 0, c.human_1.getD 0, c.human_2.getD 0]
  let is_adversarial := c.experiment != some "default"
  { query := c.test_case
    response := c.generation
    query_harmful_label := some true
    response_harmful_label := some (decide (1 < human_votes.sum))
    category := some "harmful"
    extra := [("behavior_id", ExtraVal.s (some p.1)),
              ("method", ExtraVal.s c.method),
              ("model", ExtraVal.s c.model),
              ("prompt_type", ExtraVal.s (some (if is_adversarial then "adversarial" else "vanilla"))),
              ("human_votes", ExtraVal.natList human_votes),
              ("source_file", ExtraVal.s (some "response_json"))] }

/-- HarmBenchLoader._parse_response_json: flatten the nested structure, then
map and number the cases from the given start index. -/
def HarmBenchLoader._parse_response_json (raw_data : List (String × List HarmBenchCaseRow)) (start_idx : Nat) : List DataItem :=
  numberItems "harmbench" start_idx harmbenchJsonItem (flatCases raw_data)

/-- HarmBenchLoader.load: the tabular file is parsed from counter one, the
nested file continues the same counter, and when nothing was produced the
loader falls back to the generic per-row driver, abstracted here as the
opaque fallback thunk over the fetched hub rows. -/
def HarmBenchLoader.load (query_task_path : Option (List HarmBenchCsvRow))
    (response_task_path : Option (List (String × List HarmBenchCaseRow)))
    (fallback : Unit → List DataItem) : List DataItem :=
  let combined_data : List DataItem :=
    match query_task_path with
    | some f => HarmBenchLoader._parse_query_csv f 1
    | none => []
  let combined_data :=
    combined_data ++
      (match response_task_path with
       | some f => HarmBenchLoader._parse_response_json f (combined_data.length + 1)
       | none => [])
  if combined_data.isEmpty then fallback () else combined_data

theorem numberItems_append_id (nm : String) (g1 : α → DataItem) (g2 : β → DataItem)
    (l1 : List α) (l2 : List β) (i : Nat)
    (h : i < (numberItems nm 1 g1 l1 ++
        numberItems nm ((numberItems nm 1 g1 l1).length + 1) g2 l2).length) :
    ((numberItems nm 1 g1 l1 ++
        numberItems nm ((numberItems nm 1 g1 l1).length + 1) g2 l2).get ⟨i, h⟩).id =
      generate_id nm (1 + i) := by
  by_cases hi : i < (numberItems nm 1 g1 l1).length
  · have h1 := numberItems_id nm 1 g1 l1 i hi
    simp only [List.get_eq_getElem] at h1 ⊢
    rw [List.getElem_append_left hi, h1]
  · have hge : (numberItems nm 1 g1 l1).length ≤ i := Nat.not_lt.1 hi
    have hlen : i - (numberItems nm 1 g1 l1).length <
        (numberItems nm ((numberItems nm 1 g1 l1).length + 1) g2 l2).length := by
      rw [List.length_append] at h
      omega
    have h2 := numberItems_id nm ((numberItems nm 1 g1 l1).length + 1) g2 l2
      (i - (numberItems nm 1 g1 l1).length) hlen
    simp only [List.get_eq_getElem] at h2 ⊢
    rw [List.getElem_append_right hge, h2]
    congr 1
    omega

/-- C1: loading N rows through the generic per-row driver yields exactly N
records; the record at position i carries the id generated from counter
i + 1 (registration name, dash, six digit zero padded counter); the ids are
pairwise distinct; and counters beyond 999999 keep all their digits, the
width grows instead of truncating. -/
theorem claim1_load_id_sequencing {ρ : Type} (register_name : String)
    (mapping : ρ → DataItem) (rows : List ρ) :
    (BaseDataLoader.load register_name mapping rows).length = rows.length ∧
    (∀ i (h : i < (BaseDataLoader.load register_name mapping rows).length),
      ((BaseDataLoader.load register_name mapping rows).get ⟨i, h⟩).id =
        generate_id register_name (i + 1)) ∧
    ((BaseDataLoader.load register_name mapping rows).map DataItem.id).Nodup ∧
    (∀ n, 999999 < n → pad6 n = ⟨toDecimal n⟩ ∧ 7 ≤ (toDecimal n).length) := by
  refine ⟨numberItems_length register_name 1 mapping rows, ?_,
    numberItems_id_nodup register_name mapping rows,
    fun n h => pad6_no_truncation n h⟩
  intro i h
  have hid := numberItems_id register_name 1 mapping rows i h
  rw [Nat.add_comm 1 i] at hid
  exact hid

/-- Witness for C1 at a concrete three row load and a seven digit counter. -/
theorem claim1_witness :
    ((BaseDataLoader.load "demo" (fun _ => ({} : DataItem)) [0, 1, 2]).get
      ⟨1, by decide⟩).id = "demo-000002" ∧
    (pad6 1234567 = ⟨toDecimal 1234567⟩ ∧ 7 ≤ (toDecimal 1234567).length) := by
  obtain ⟨h1, h2, h3, h4⟩ :=
    claim1_load_id_sequencing "demo" (fun _ => ({} : DataItem)) [0, 1, 2]
  refine ⟨?_, h4 1234567 (by decide)⟩
  rw [h2 1 (by decide)]
  decide

/-- C2 counterexample: a BeaverTails row with no overall safety flag is
silent, yet both harmful labels come out as the guessed boolean false rather
than null. -/
theorem claim2_counterexample :
    (BeaverTailsLoader.mapping {}).query_harmful_label = some false ∧
    (BeaverTailsLoader.mapping {}).response_harmful_label = some false ∧
    (BeaverTailsLoader.mapping {}).query_harmful_label ≠ none := by decide

/-- C2 amended: silence does not map to null in the beavertails and aegis-v2
families: an absent overall safety flag defaults to safe and both harmful
labels become false, absent aegis-v2 labels compare unequal to the unsafe
token and become false, and the refusal label on silence is false; null on
silence holds only where a strategy leaves a field unset, as aegis-v1 does
for its two response labels. -/
theorem claim2_amended (r1 : BeaverTailsRow) (r2 : AegisV2Row) (r3 : AegisV1Row) :
    (r1.is_safe = none →
      (BeaverTailsLoader.mapping r1).query_harmful_label = some false ∧
      (BeaverTailsLoader.mapping r1).response_harmful_label = some false) ∧
    (r2.prompt_label = none →
      (AegisV2Loader.mapping r2).query_harmful_label = some false) ∧
    (r2.response_label = none →
      (AegisV2Loader.mapping r2).response_harmful_label = some false) ∧
    (r2.response_label_source = none →
      (AegisV2Loader.mapping r2).response_refusal_label = some false) ∧
    (AegisV1Loader.mapping r3).response_harmful_label = none ∧
    (AegisV1Loader.mapping r3).response_refusal_label = none := by
  refine ⟨?_, ?_, ?_, ?_, rfl, rfl⟩
  · intro h
    constructor <;> simp [BeaverTailsLoader.mapping, h]
  · intro h
    simp [AegisV2Loader.mapping, h]
  · intro h
    simp [AegisV2Loader.mapping, h]
  · intro h
    simp [AegisV2Loader.mapping, h]

/-- Witness for C2 amended at fully silent rows of each family. -/
theorem claim2_witness :
    (BeaverTailsLoader.mapping {}).response_harmful_label = some false ∧
    (AegisV2Loader.mapping {}).response_refusal_label = some false ∧
    (AegisV1Loader.mapping {}).response_harmful_label = none :=
  ⟨((claim2_amended {} {} {}).1 rfl).2,
   (claim2_amended {} {} {}).2.2.2.1 rfl,
   (claim2_amended {} {} {}).2.2.2.2.1⟩

/-- Concrete aegis-v1 row whose five rater labels are all the literal token
None. -/
def allNoneRow : AegisV1Row :=
  { labels_0 := some "None", labels_1 := some "None", labels_2 := some "None",
    labels_3 := some "None", labels_4 := some "None" }

/-- C3 counterexample: on a row whose five rater labels are all the literal
token None, the category is the sentinel None as claimed, but the harmful
flag is true, not null. -/
theorem claim3_counterexample :
    (AegisV1Loader.mapping allNoneRow).category = some "None" ∧
    (AegisV1Loader.mapping allNoneRow).query_harmful_label = some true ∧
    (AegisV1Loader.mapping allNoneRow).query_harmful_label ≠ none := by decide

/-- C3 amended: with all five rater labels abstained (absent, null, empty or
the literal token None) the aggregated category is the sentinel None, while
the harmful flag is true, never null: the every-rater rule ranges over the
labels that are not source nulls, and each of those is then empty or the
literal token None, both different from Safe, so the conjunction holds
vacuously or degenerately. -/
theorem claim3_amended (row : AegisV1Row)
    (h : ∀ o ∈ labelList row, o = none ∨ o = some "" ∨ o = some "None") :
    (AegisV1Loader.mapping row).category = some "None" ∧
    (AegisV1Loader.mapping row).query_harmful_label = some true := by
  constructor
  · have hv : valid_labels row = [] :=
      filterMap_valid_nil_of_abstain (labelList row) h
    simp [AegisV1Loader.mapping, AegisV1Loader._get_majority_label, hv]
  · have ha : ((labelList row).filterMap id).all (fun s => s != "Safe") = true :=
      filterMap_id_all_of_abstain (labelList row) h
    simp [AegisV1Loader.mapping, notNoneLabels, ha]

/-- Witness for C3 amended on a row mixing the three abstention shapes. -/
theorem claim3_witness :
    (AegisV1Loader.mapping { labels_1 := some "", labels_2 := some "None" }).category =
      some "None" ∧
    (AegisV1Loader.mapping { labels_1 := some "", labels_2 := some "None" }).query_harmful_label =
      some true :=
  claim3_amended { labels_1 := some "", labels_2 := some "None" } (by decide)

/-- C4: with at least one valid rater label, the harmful flag is true exactly
when every valid (non-abstained) label differs from the safe sentinel,
independently of which label wins the majority vote. -/
theorem claim4_harmful_iff (row : AegisV1Row) (_h : valid_labels row ≠ []) :
    (AegisV1Loader.mapping row).query_harmful_label = some true ↔
      ∀ s ∈ valid_labels row, s ≠ "Safe" := by
  have he : (AegisV1Loader.mapping row).query_harmful_label =
      some ((notNoneLabels row).all (fun s => s != "Safe")) := rfl
  rw [he, notNone_all_eq_valid_all row]
  simp [List.all_eq_true]

/-- Concrete aegis-v1 row with valid labels Safe, X, X: the majority label is
X, yet one surviving label is Safe. -/
def safeXXRow : AegisV1Row :=
  { labels_0 := some "Safe", labels_1 := some "X", labels_2 := some "X" }

/-- Witness for C4: the majority category of the Safe, X, X row is X while
its harmful flag is false, as one surviving label is the safe sentinel. -/
theorem claim4_witness :
    valid_labels safeXXRow ≠ [] ∧
    ((AegisV1Loader.mapping safeXXRow).query_harmful_label = some true ↔
      ∀ s ∈ valid_labels safeXXRow, s ≠ "Safe") ∧
    (AegisV1Loader.mapping safeXXRow).category = some "X" ∧
    (AegisV1Loader.mapping safeXXRow).query_harmful_label = some false :=
  ⟨by decide, claim4_harmful_iff safeXXRow (by decide), by decide, by decide⟩

theorem harmbench_load_eq (qf : List HarmBenchCsvRow)
    (rf : List (String × List HarmBenchCaseRow)) (fallback : Unit → List DataItem)
    (hne : HarmBenchLoader._parse_query_csv qf 1 ++
      HarmBenchLoader._parse_response_json rf
        ((HarmBenchLoader._parse_query_csv qf 1).length + 1) ≠ []) :
    HarmBenchLoader.load (some qf) (some rf) fallback =
      HarmBenchLoader._parse_query_csv qf 1 ++
        HarmBenchLoader._parse_response_json rf
          ((HarmBenchLoader._parse_query_csv qf 1).length + 1) := by
  show (if (HarmBenchLoader._parse_query_csv qf 1 ++
      HarmBenchLoader._parse_response_json rf
        ((HarmBenchLoader._parse_query_csv qf 1).length + 1)).isEmpty = true
    then fallback ()
    else HarmBenchLoader._parse_query_csv qf 1 ++
      HarmBenchLoader._parse_response_json rf
        ((HarmBenchLoader._parse_query_csv qf 1).length + 1)) = _
  rw [if_neg]
  simpa [List.isEmpty_iff] using hne

/-- C5: the multi-file strategy assigns ids from one continuous counter, the
tabular part starting at one and the flattened nested part continuing at the
tabular length plus one; when the combined output is nonempty the load result
is exactly that concatenation; an absent path behaves exactly like an empty
file, contributing zero records; and with both paths absent the strategy
defers to the generic fetch driver, abstracted by the fallback thunk. -/
theorem claim5_harmbench_load (qf : List HarmBenchCsvRow)
    (rf : List (String × List HarmBenchCaseRow)) (fallback : Unit → List DataItem) :
    (HarmBenchLoader.load none none fallback = fallback ()) ∧
    (∀ i (h : i < (HarmBenchLoader._parse_query_csv qf 1 ++
        HarmBenchLoader._parse_response_json rf
          ((HarmBenchLoader._parse_query_csv qf 1).length + 1)).length),
      ((HarmBenchLoader._parse_query_csv qf 1 ++
        HarmBenchLoader._parse_response_json rf
          ((HarmBenchLoader._parse_query_csv qf 1).length + 1)).get ⟨i, h⟩).id =
        generate_id "harmbench" (1 + i)) ∧
    (HarmBenchLoader._parse_query_csv qf 1 ++
        HarmBenchLoader._parse_response_json rf
          ((HarmBenchLoader._parse_query_csv qf 1).length + 1) ≠ [] →
      HarmBenchLoader.load (some qf) (some rf) fallback =
        HarmBenchLoader._parse_query_csv qf 1 ++
          HarmBenchLoader._parse_response_json rf
            ((HarmBenchLoader._parse_query_csv qf 1).length + 1)) ∧
    (HarmBenchLoader.load none (some rf) fallback =
      HarmBenchLoader.load (some []) (some rf) fallback) ∧
    (HarmBenchLoader.load (some qf) none fallback =
      HarmBenchLoader.load (some qf) (some []) fallback) := by
  refine ⟨rfl, ?_, harmbench_load_eq qf rf fallback, rfl, rfl⟩
  intro i h
  exact numberItems_append_id "harmbench" harmbenchCsvItem harmbenchJsonItem
    (qf.filter functionalCategoryAllowed) (flatCases rf) i h

/-- Concrete tabular file with three allow-listed rows and one filtered-out
contextual row. -/
def csv3 : List HarmBenchCsvRow :=
  [{ Behavior := some "b1", FunctionalCategory := some "standard" },
   { Behavior := some "bx", FunctionalCategory := some "contextual" },
   { Behavior := some "b2", FunctionalCategory := some "copyright" },
   { Behavior := some "b3", FunctionalCategory := some "standard" }]

/-- Concrete first nested group with two cases. -/
def cases2 : List HarmBenchCaseRow :=
  [{ test_case := some "t1", human_0 := some 1, human_1 := some 1 },
   { test_case := some "t2" }]

/-- Concrete second nested group with three cases. -/
def cases3 : List HarmBenchCaseRow :=
  [{ test_case := some "t3" }, { test_case := some "t4" }, { test_case := some "t5" }]

/-- Concrete nested file with two groups of two and three cases. -/
def nested5 : List (String × List HarmBenchCaseRow) :=
  [("beh1", cases2), ("beh2", cases3)]

/-- Witness for C5 on the concrete files: id continuity across the boundary
between the tabular and nested parts, the nonempty load equation, and the
fallback when both paths are absent. -/
theorem claim5_witness :
    HarmBenchLoader.load none none (fun _ => [({} : DataItem)]) = [({} : DataItem)] ∧
    ((HarmBenchLoader._parse_query_csv csv3 1 ++
      HarmBenchLoader._parse_response_json nested5
        ((HarmBenchLoader._parse_query_csv csv3 1).length + 1)).get ⟨3, by decide⟩).id =
      generate_id "harmbench" (1 + 3) ∧
    HarmBenchLoader.load (some csv3) (some nested5) (fun _ => [({} : DataItem)]) =
      HarmBenchLoader._parse_query_csv csv3 1 ++
        HarmBenchLoader._parse_response_json nested5
          ((HarmBenchLoader._parse_query_csv csv3 1).length + 1) := by
  obtain ⟨h1, h2, h3, h4, h5⟩ :=
    claim5_harmbench_load csv3 nested5 (fun _ => [({} : DataItem)])
  exact ⟨h1, h2 3 (by decide), h3 (by decide)⟩

/-- C6 counterexample: three allow-listed tabular rows merged with a nested
file of two groups holding two and three cases give eight records, not five,
and the ids continue through 000008. -/
theorem claim6_counterexample :
    (HarmBenchLoader.load (some csv3) (some nested5) (fun _ => [])).length = 8 ∧
    (HarmBenchLoader.load (some csv3) (some nested5) (fun _ => [])).length ≠ 5 ∧
    (HarmBenchLoader.load (some csv3) (some nested5) (fun _ => [])).map DataItem.id =
      ["harmbench-000001", "harmbench-000002", "harmbench-000003",
       "harmbench-000004", "harmbench-000005", "harmbench-000006",
       "harmbench-000007", "harmbench-000008"] := by decide

/-- C6 amended: loading a tabular file with exactly three allow-listed rows
together with a nested file of two groups holding two and three cases
produces exactly eight records, ids 000001 to 000003 for the tabular rows
followed by 000004 to 000008 for the nested cases flattened across groups in
encounter order, all on one continuous counter. -/
theorem claim6_amended (qf : List HarmBenchCsvRow) (k1 k2 : String)
    (c1 c2 : List HarmBenchCaseRow) (fallback : Unit → List DataItem)
    (hq : (qf.filter functionalCategoryAllowed).length = 3)
    (h1 : c1.length = 2) (h2 : c2.length = 3) :
    (HarmBenchLoader.load (some qf) (some [(k1, c1), (k2, c2)]) fallback).length = 8 ∧
    (∀ i (h : i < (HarmBenchLoader.load (some qf) (some [(k1, c1), (k2, c2)]) fallback).length),
      ((HarmBenchLoader.load (some qf) (some [(k1, c1), (k2, c2)]) fallback).get ⟨i, h⟩).id =
        generate_id "harmbench" (1 + i)) := by
  have hcsv_len : (HarmBenchLoader._parse_query_csv qf 1).length = 3 := by
    show (numberItems "harmbench" 1 harmbenchCsvItem (qf.filter functionalCategoryAllowed)).length = 3
    rw [numberItems_length]
    exact hq
  have hflat_len : (flatCases [(k1, c1), (k2, c2)]).length = 5 := by
    simp [flatCases, h1, h2]
  have hjson_len : ∀ s, (HarmBenchLoader._parse_response_json [(k1, c1), (k2, c2)] s).length = 5 := by
    intro s
    show (numberItems "harmbench" s harmbenchJsonItem (flatCases [(k1, c1), (k2, c2)])).length = 5
    rw [numberItems_length]
    exact hflat_len
  have hcomb_len : (HarmBenchLoader._parse_query_csv qf 1 ++
      HarmBenchLoader._parse_response_json [(k1, c1), (k2, c2)]
        ((HarmBenchLoader._parse_query_csv qf 1).length + 1)).length = 8 := by
    rw [List.length_append, hcsv_len, hjson_len]
  have hne : HarmBenchLoader._parse_query_csv qf 1 ++
      HarmBenchLoader._parse_response_json [(k1, c1), (k2, c2)]
        ((HarmBenchLoader._parse_query_csv qf 1).length + 1) ≠ [] := by
    intro h0
    rw [h0] at hcomb_len
    simp at hcomb_len
  have heq := harmbench_load_eq qf [(k1, c1), (k2, c2)] fallback hne
  rw [heq]
  refine ⟨hcomb_len, ?_⟩
  intro i h
  exact numberItems_append_id "harmbench" harmbenchCsvItem harmbenchJsonItem
    (qf.filter functionalCategoryAllowed) (flatCases [(k1, c1), (k2, c2)]) i h

/-- Witness for C6 amended on the concrete files. -/
theorem claim6_witness :
    (HarmBenchLoader.load (some csv3) (some [("beh1", cases2), ("beh2", cases3)])
      (fun _ => [])).length = 8 ∧
    ((HarmBenchLoader.load (some csv3) (some [("beh1", cases2), ("beh2", cases3)])
      (fun _ => [])).get ⟨7, by decide⟩).id = generate_id "harmbench" (1 + 7) := by
  obtain ⟨h1, h2⟩ := claim6_amended csv3 "beh1" "beh2" cases2 cases3 (fun _ => [])
    (by decide) (by decide) (by decide)
  exact ⟨h1, h2 7 (by decide)⟩

/-- C7: the response harmful label of the direct categorical family is null
whenever the response text is absent, blank after stripping, or the literal
token none in any letter case, even when the prompt label classifies the row
as unsafe; otherwise it equals the harmfulness derived from the prompt
label, which is also the query harmful label. -/
theorem claim7_response_null (row : BingoGuardRow) :
    ((row.response = none ∨
        ∃ s, row.response = some s ∧ (pyStrip s = "" ∨ pyLower s = "none")) →
      (BingoGuardLoader.mapping row).response_harmful_label = none) ∧
    (∀ s, row.response = some s → pyStrip s ≠ "" → pyLower s ≠ "none" →
      (BingoGuardLoader.mapping row).response_harmful_label =
        (BingoGuardLoader.mapping row).query_harmful_label) := by
  constructor
  · rintro (h | ⟨s, hs, hcond⟩)
    · simp [BingoGuardLoader.mapping, h]
    · rcases hcond with h1 | h1 <;> simp [BingoGuardLoader.mapping, hs, h1]
  · intro s hs h1 h2
    simp [BingoGuardLoader.mapping, hs, h1, h2]

/-- Concrete unsafe-labelled row with a whitespace-only response. -/
def bingoBlankRow : BingoGuardRow :=
  { prompt_label := some "unsafe:violence", response := some "   " }

/-- Concrete unsafe-labelled row with a mixed-case none token response. -/
def bingoNoneRow : BingoGuardRow :=
  { prompt_label := some "unsafe:violence", response := some "NoNe" }

/-- Concrete unsafe-labelled row with a real response. -/
def bingoOkRow : BingoGuardRow :=
  { prompt_label := some "unsafe:violence", response := some "ok" }

/-- Witness for C7: a whitespace response and a cased none token force null
even under an unsafe prompt label, while a real response follows it. -/
theorem claim7_witness :
    (BingoGuardLoader.mapping bingoBlankRow).response_harmful_label = none ∧
    (BingoGuardLoader.mapping bingoNoneRow).response_harmful_label = none ∧
    (BingoGuardLoader.mapping bingoOkRow).response_harmful_label =
      (BingoGuardLoader.mapping bingoOkRow).query_harmful_label :=
  ⟨(claim7_response_null bingoBlankRow).1 (Or.inr ⟨"   ", rfl, Or.inl (by decide)⟩),
   (claim7_response_null bingoNoneRow).1 (Or.inr ⟨"NoNe", rfl, Or.inr (by decide)⟩),
   (claim7_response_null bingoOkRow).2 "ok" rfl (by decide) (by decide)⟩

/-- C8 counterexample: feeding the claimed example string through the label
parser yields the trimmed post-last-colon piece 3 as category, not violence;
the severity extracted from the same string is 3 as claimed. -/
theorem claim8_counterexample :
    (BingoGuardLoader._parse_safety "unsafe:violence #level: 3").2 = "3" ∧
    (BingoGuardLoader._parse_safety "unsafe:violence #level: 3").2 ≠ "violence" ∧
    BingoGuardLoader._extract_severity "unsafe:violence #level: 3" = some 3 := by
  decide

/-- C8 amended: the combined label string yields severity 3 but category 3,
the trimmed substring after its last colon; the category violence arises from
the plain label unsafe:violence; in general the category is the trimmed
post-last-colon piece when a colon is present, the unsafe sentinel when no
colon is present but the unsafe marker occurs, and a label without the level
pattern yields severity null, never zero. -/
theorem claim8_amended :
    (BingoGuardLoader._parse_safety "unsafe:violence #level: 3" = (true, "3")) ∧
    (BingoGuardLoader._parse_safety "unsafe:violence" = (true, "violence")) ∧
    (BingoGuardLoader._extract_severity "unsafe:violence #level: 3" = some 3) ∧
    (∀ s, s ≠ "" → s.data.contains ':' = true →
      (BingoGuardLoader._parse_safety s).2 = pyStrip (afterLastColon s)) ∧
    (∀ s, s.data.contains ':' = false → containsSub ("unsafe".data) s.data = true →
      (BingoGuardLoader._parse_safety s).2 = "unsafe") ∧
    (∀ s, containsSub ("#level:".data) s.data = false →
      BingoGuardLoader._extract_severity s = none) := by
  refine ⟨by decide, by decide, by decide, ?_, ?_, ?_⟩
  · intro s h1 h2
    have h2m : ':' ∈ s.data := by simpa using h2
    simp [BingoGuardLoader._parse_safety, h1, h2m]
  · intro s h1 h2
    by_cases hs : s = ""
    · rw [hs] at h2
      simp [containsSub, List.isPrefixOf] at h2
    · have h1m : ':' ∉ s.data := by simpa using h1
      simp [BingoGuardLoader._parse_safety, hs, h1m, h2]
  · intro s h1
    simp [BingoGuardLoader._extract_severity, h1]

/-- Witness for C8 amended at concrete label strings. -/
theorem claim8_witness :
    (BingoGuardLoader._parse_safety "unsafe:fraud").2 = pyStrip (afterLastColon "unsafe:fraud") ∧
    (BingoGuardLoader._parse_safety "very unsafe stuff").2 = "unsafe" ∧
    BingoGuardLoader._extract_severity "safe" = none := by
  obtain ⟨_, _, _, h4, h5, h6⟩ := claim8_amended
  exact ⟨h4 "unsafe:fraud" (by decide) (by decide),
    h5 "very unsafe stuff" (by decide) (by decide),
    h6 "safe" (by decide)⟩

/-- C9: the boolean-dictionary family writes one shared harmfulness boolean,
the negated overall safety flag, identically to both harmful labels; an
absent, empty or all-false flag dictionary yields a null category; and a
nonempty semicolon join of the true flag names becomes the category. -/
theorem claim9_category_join (row : BeaverTailsRow) :
    ((BeaverTailsLoader.mapping row).query_harmful_label =
      (BeaverTailsLoader.mapping row).response_harmful_label) ∧
    ((BeaverTailsLoader.mapping row).query_harmful_label =
      some (!(row.is_safe.getD true))) ∧
    ((row.category.getD []).all (fun p => !p.2) = true →
      (BeaverTailsLoader.mapping row).category = none) ∧
    (∀ l, row.category = some l →
      BeaverTailsLoader._extract_categories l ≠ "" →
      (BeaverTailsLoader.mapping row).category =
        some (BeaverTailsLoader._extract_categories l)) := by
  refine ⟨rfl, rfl, ?_, ?_⟩
  · intro hall
    have hfil : (row.category.getD []).filter (fun p => p.2) = [] := by
      rw [List.filter_eq_nil_iff]
      intro a ha
      have := List.all_eq_true.1 hall a ha
      simp at this
      simp [this]
    simp only [BeaverTailsLoader.mapping, BeaverTailsLoader._extract_categories, hfil]
    split <;> rfl
  · intro l hl hne
    have hlen : (BeaverTailsLoader._extract_categories l).length ≠ 0 := by
      intro h0
      apply hne
      cases he : BeaverTailsLoader._extract_categories l with
      | mk data =>
        rw [he] at h0
        cases data with
        | nil => rfl
        | cons c cs => simp [String.length] at h0
    simp [BeaverTailsLoader.mapping, hl, hlen]

/-- Concrete BeaverTails row with flags a true, b false, c true. -/
def beaverFlagsRow : BeaverTailsRow :=
  { category := some [("a", true), ("b", false), ("c", true)], is_safe := some false }

/-- Witness for C9: the example flag dictionary joins to a;c, the two harmful
labels agree, and an all-false dictionary degrades to a null category. -/
theorem claim9_witness :
    (BeaverTailsLoader.mapping beaverFlagsRow).category = some "a;c" ∧
    (BeaverTailsLoader.mapping beaverFlagsRow).query_harmful_label =
      (BeaverTailsLoader.mapping beaverFlagsRow).response_harmful_label ∧
    (BeaverTailsLoader.mapping { category := some [("a", false)] }).category = none := by
  obtain ⟨h1, _, _, h4⟩ := claim9_category_join beaverFlagsRow
  refine ⟨?_, h1, ?_⟩
  · have := h4 [("a", true), ("b", false), ("c", true)] rfl (by decide)
    rw [this]
    decide
  · exact (claim9_category_join { category := some [("a", false)] }).2.2.1 (by decide)

/-- C10: the aegis-v2 refusal label is always a boolean, never null; it is
true exactly when the response label source field equals the refusal
augmentation token, and false for every other value including absence. -/
theorem claim10_refusal (row : AegisV2Row) :
    ((AegisV2Loader.mapping row).response_refusal_label ≠ none) ∧
    ((AegisV2Loader.mapping row).response_refusal_label = some true ↔
      row.response_label_source = some "refusal_data_augmentation") ∧
    (row.response_label_source ≠ some "refusal_data_augmentation" →
      (AegisV2Loader.mapping row).response_refusal_label = some false) := by
  refine ⟨by simp [AegisV2Loader.mapping], ?_, ?_⟩
  · simp [AegisV2Loader.mapping]
  · intro h
    simp [AegisV2Loader.mapping, h]

/-- Concrete aegis-v2 row whose response label source is the refusal
augmentation token. -/
def aegisRefusalRow : AegisV2Row :=
  { response_label_source := some "refusal_data_augmentation" }

/-- Witness for C10 at the refusal augmentation source and at a silent row. -/
theorem claim10_witness :
    (AegisV2Loader.mapping aegisRefusalRow).response_refusal_label = some true ∧
    (AegisV2Loader.mapping {}).response_refusal_label = some false :=
  ⟨(claim10_refusal aegisRefusalRow).2.1.mpr rfl,
   (claim10_refusal {}).2.2 (by decide)⟩
